import Mathlib

/-!
Verification of the YARPC inbound dispatch runtime, as implemented in
`transport/tchannel/handler.go` (the TChannel inbound dispatcher and its
response-writer state machine) and, where the HTTP side is only described
by the specification and its tests, modelled from the specification.

The Go code is shallowly embedded: map-like `transport.Headers` become
association lists, the TChannel transport underneath the response writer
becomes an explicit environment (`Env`) that scripts the outcome of each
wire operation, Go panics become `Except`/dedicated result constructors,
and the wire side effects of a call become an explicit event trace.
-/

namespace Yarpc

/-- Body and frame payloads are finite byte sequences. -/
abbrev Bytes := List Nat

/-- The ASCII lower-casing of one character, on its code point. -/
def lowerChar (c : Char) : Char :=
  if 65 ≤ c.toNat ∧ c.toNat ≤ 90 then Char.ofNat (c.toNat + 32) else c

/-- Modelled from the spec: `transport.Headers` key canonicalization (the
`transport` package itself is not under `src/`): every stored key is
lower-cased ASCII. -/
def lowerStr (s : String) : String :=
  String.mk (s.data.map lowerChar)

/-- Modelled from the spec: `transport.Headers` is a mapping from
lower-cased keys to values, last-writer-wins on `Set`, enumerated in
insertion order.  Embedded as an association list with lower-cased keys. -/
abbrev Headers := List (String × String)

/-- Modelled from the spec: `Headers.Set` lower-cases the key and overwrites
an existing binding, appending a new one otherwise. -/
def hdrSet (h : Headers) (k v : String) : Headers :=
  if h.any (fun kv => kv.1 == lowerStr k) then
    h.map (fun kv => if kv.1 == lowerStr k then (lowerStr k, v) else kv)
  else
    h ++ [(lowerStr k, v)]

/-- TChannel system error codes (the subset this code mentions). -/
inductive ErrCode where
  | unexpected
  | badRequest
  | timeout
  | declined
  | busy
deriving DecidableEq, Repr

/-- Transport-neutral error classes from the spec's error taxonomy. -/
inductive ErrClass where
  | invalidArgument
  | notFound
  | deadlineExceeded
  | unknown
  | internal
  | unavailable
deriving DecidableEq, Repr

/-- Modelled from the spec: the system error code corresponding to a
transport-neutral error class ("SendSystemError with the corresponding
system error code"). -/
def classCode : ErrClass → ErrCode
  | .invalidArgument => .badRequest
  | .notFound => .badRequest
  | .deadlineExceeded => .timeout
  | .unknown => .unexpected
  | .internal => .unexpected
  | .unavailable => .declined

/-- A system error as handed to `SendSystemError`: either the sentinel
`tchannel.ErrTimeoutRequired`, or `tchannel.NewSystemError(code, msg)`. -/
inductive SysErr where
  | timeoutRequired
  | sys (code : ErrCode) (msg : String)
deriving DecidableEq, Repr

/-- The transport-neutral request handed to a handler
(`transport.Request` as populated by `handler.handle`). -/
structure Request where
  caller : String
  service : String
  encoding : String
  procedure : String
  headers : Headers
  body : Bytes
  ttl : Int
deriving DecidableEq, Repr

/-- Observable wire-side events of one inbound TChannel call. -/
inductive Event where
  | flushHeaders (h : Headers)
  | openBody
  | writeBody (s : Bytes)
  | closeBody
  | readArg2
  | readArg3
  | invokeHandler (req : Request)
  | closeReqBody
  | sendSystemError (e : SysErr)
deriving DecidableEq, Repr

/-- The transport underneath a response writer, scripting the result of
each wire operation: the `writeHeaders` call through `Arg2Writer`, the
`Arg3Writer()` open, the k-th `bodyWriter.Write` (returning the count
written and an optional error), and `bodyWriter.Close`. -/
structure Env where
  headersResult : Option String
  bodyOpenResult : Option String
  bodyWriteResult : Nat → Bytes → Nat × Option String
  bodyCloseResult : Option String

/-- An environment in which every wire operation succeeds and each body
write accepts all of its bytes. -/
def Env.ok (env : Env) : Prop :=
  env.headersResult = none ∧ env.bodyOpenResult = none ∧
    (∀ k s, env.bodyWriteResult k s = (s.length, none)) ∧
    env.bodyCloseResult = none

/-- A concrete all-success environment. -/
def envOk : Env :=
  { headersResult := none
    bodyOpenResult := none
    bodyWriteResult := fun _ s => (s.length, none)
    bodyCloseResult := none }

/-- The `responseWriter` state: `failedWith` is the sticky stored error,
`bodyOpen` says whether `bodyWriter` is non-nil, `headers` are the pending
headers, `wroteHeaders` says whether `Write` has flushed them, and
`bodyWriteCount` counts the body writes issued so far (indexing the
environment script). -/
structure RW where
  failedWith : Option String
  bodyOpen : Bool
  format : String
  headers : Headers
  wroteHeaders : Bool
  bodyWriteCount : Nat
deriving Repr

/-- `newResponseWriter`: empty pending headers, nothing written, no error. -/
def RW.init (format : String) : RW :=
  { failedWith := none
    bodyOpen := false
    format := format
    headers := []
    wroteHeaders := false
    bodyWriteCount := 0 }

/-- `responseWriter.AddHeaders`: panics (here: `Except.error`) once
`wroteHeaders` is set, otherwise `Set`s every given pair into the pending
headers. -/
def RW.addHeaders (rw : RW) (h : List (String × String)) : Except String RW :=
  if rw.wroteHeaders then
    Except.error "AddHeaders() cannot be called after calling Write()."
  else
    Except.ok { rw with headers := h.foldl (fun acc kv => hdrSet acc kv.1 kv.2) rw.headers }

/-- Result of one `Write` call: the new writer state, the wire events it
produced, the byte count returned, and the returned error. -/
structure WriteRes where
  rw : RW
  evs : List Event
  n : Nat
  err : Option String
deriving Repr

/-- The `rw.bodyWriter.Write(s)` step at the end of `responseWriter.Write`:
ask the environment for the outcome of this body write, record a new
sticky error if it failed, and emit the bytes the transport accepted. -/
def RW.bodyEmit (env : Env) (rw : RW) (s : Bytes) (evs : List Event) : WriteRes :=
  let r := env.bodyWriteResult rw.bodyWriteCount s
  { rw := { rw with
      bodyWriteCount := rw.bodyWriteCount + 1
      failedWith := match r.2 with
        | some e => some e
        | none => rw.failedWith }
    evs := evs ++ [Event.writeBody (s.take r.1)]
    n := r.1
    err := r.2 }

/-- The `if rw.bodyWriter == nil` block of `responseWriter.Write`: open the
body stream through `Arg3Writer` if needed, then write. -/
def RW.bodyStep (env : Env) (rw : RW) (s : Bytes) (evs : List Event) : WriteRes :=
  if rw.bodyOpen then
    RW.bodyEmit env rw s evs
  else
    match env.bodyOpenResult with
    | some e => { rw := { rw with failedWith := some e }, evs := evs, n := 0, err := some e }
    | none => RW.bodyEmit env { rw with bodyOpen := true } s (evs ++ [Event.openBody])

/-- `responseWriter.Write`: return the sticky error if set; on the first
call mark the headers written and flush them through `Arg2Writer` (failing
sticky on error); then open the body stream if needed and write. -/
def RW.write (env : Env) (rw : RW) (s : Bytes) : WriteRes :=
  match rw.failedWith with
  | some e => { rw := rw, evs := [], n := 0, err := some e }
  | none =>
    if rw.wroteHeaders then
      RW.bodyStep env rw s []
    else
      match env.headersResult with
      | some e =>
          { rw := { rw with wroteHeaders := true, failedWith := some e }
            evs := [], n := 0, err := some e }
      | none =>
          RW.bodyStep env { rw with wroteHeaders := true } s [Event.flushHeaders rw.headers]

/-- Result of `Close`: the writer, the wire events, and the returned error. -/
structure CloseRes where
  rw : RW
  evs : List Event
  err : Option String
deriving Repr

/-- `responseWriter.Close`: close the body stream if it was opened, then
return the sticky error if set, otherwise the close error. -/
def RW.close (env : Env) (rw : RW) : CloseRes :=
  if rw.bodyOpen then
    { rw := rw
      evs := [Event.closeBody]
      err := match rw.failedWith with
        | some f => some f
        | none => env.bodyCloseResult }
  else
    { rw := rw
      evs := []
      err := match rw.failedWith with
        | some f => some f
        | none => none }

/-- What the handler's `Handle` did: returned nil, returned an error
(tagged with its transport-neutral class, which the formatted message `%v`
renders as `msg`), or panicked. -/
inductive HandlerOutcome where
  | ok
  | err (c : ErrClass) (msg : String)
  | panicked (msg : String)
deriving DecidableEq, Repr

/-- Result of running a handler: the response writer it left behind, the
wire events its writes produced, and how `Handle` exited. -/
structure HRes where
  rw : RW
  evs : List Event
  outcome : HandlerOutcome

/-- A registered `transport.Handler`: consumes the request and the
response writer (driving it against the transport environment). -/
abbrev Handler := Request → RW → Env → HRes

/-- An `inboundCall`: the call metadata plus the outcomes of its
`Arg2Reader`/`Arg3Reader` frame reads. -/
structure Call where
  serviceName : String
  callerName : String
  methodString : String
  format : String
  arg2 : Except String Bytes
  arg3 : Except String Bytes

/-- A per-format header decoder, standing for the `readHeaders` decoding
of the arg2 frame (the decoding itself is format-specific and opaque to
the dispatcher). -/
abbrev HdrDecode := String → Bytes → Except String Headers

/-- `readHeaders(call.Format(), call.Arg2Reader)`: read the arg2 frame,
then decode it per format; either failure is reported as one error. -/
def readHdrs (dec : HdrDecode) (call : Call) : Except String Headers :=
  match call.arg2 with
  | Except.error e => Except.error e
  | Except.ok bs => dec call.format bs

/-- The `transport.Request` literal built by `handler.handle`. -/
def mkReq (call : Call) (hs : Headers) (body : Bytes) (ttl : Int) : Request :=
  { caller := call.callerName
    service := call.serviceName
    encoding := call.format
    procedure := call.methodString
    headers := hs
    body := body
    ttl := ttl }

/-- How `handler.handle` exited: normally, or by propagating a panic
raised below it (there is no `recover` in `handle`). -/
inductive HandleResult where
  | returned
  | panicked (msg : String)
deriving DecidableEq, Repr

/-- `handler.handle`, the TChannel inbound dispatcher: reject the call
with `ErrTimeoutRequired` when the ambient context has no deadline; read
and decode arg2 (headers) and open arg3 (body), sending an `unexpected`
system error when either fails; build the request, invoke the handler, and
send an `unexpected` system error when it returns an error.  The deferred
`rw.Close()` and `body.Close()` run on every exit from the handler,
including a panic, in LIFO order; a handler panic then propagates out. -/
def handle (dl : Option Int) (now : Int) (dec : HdrDecode) (env : Env)
    (hdlr : Handler) (call : Call) : HandleResult × List Event :=
  match dl with
  | none => (HandleResult.returned, [Event.sendSystemError SysErr.timeoutRequired])
  | some d =>
    match readHdrs dec call with
    | Except.error e =>
        (HandleResult.returned,
          [Event.readArg2,
           Event.sendSystemError (SysErr.sys ErrCode.unexpected ("failed to read headers: " ++ e))])
    | Except.ok hs =>
      match call.arg3 with
      | Except.error e =>
          (HandleResult.returned,
            [Event.readArg2, Event.readArg3,
             Event.sendSystemError (SysErr.sys ErrCode.unexpected ("failed to read body: " ++ e))])
      | Except.ok body =>
        let req := mkReq call hs body (d - now)
        let r := hdlr req (RW.init call.format) env
        let c := RW.close env r.rw
        let pre := [Event.readArg2, Event.readArg3, Event.invokeHandler req] ++ r.evs
        match r.outcome with
        | HandlerOutcome.ok =>
            (HandleResult.returned, pre ++ c.evs ++ [Event.closeReqBody])
        | HandlerOutcome.err _ m =>
            (HandleResult.returned,
              pre ++ [Event.sendSystemError (SysErr.sys ErrCode.unexpected ("internal error: " ++ m))]
                ++ c.evs ++ [Event.closeReqBody])
        | HandlerOutcome.panicked m =>
            (HandleResult.panicked m, pre ++ c.evs ++ [Event.closeReqBody])

/-- The wire-visible outcome of one HTTP inbound call. -/
inductive HttpOutcome where
  | success (status : Nat)
  | rpcError (c : ErrClass) (msg : String)
deriving DecidableEq, Repr

/-- Modelled from the spec: the HTTP inbound dispatcher (the `yarpchttp`
handler itself is not under `src/`, only its tests are).  Per the spec it
invokes `Handle` under a recovery barrier: a handler panic is converted
into an `Unknown("panic: <info>")` error and the response is still
terminated on the wire (the `Bool` component records termination). -/
def httpDispatch (h : Request → HandlerOutcome) (req : Request) : HttpOutcome × Bool :=
  match h req with
  | HandlerOutcome.ok => (HttpOutcome.success 200, true)
  | HandlerOutcome.err c m => (HttpOutcome.rpcError c m, true)
  | HandlerOutcome.panicked m => (HttpOutcome.rpcError ErrClass.unknown ("panic: " ++ m), true)

/-- Modelled from the spec: the HTTP listener serves every call of a
sequence independently; a fault in one call does not tear it down. -/
def httpServe (h : Request → HandlerOutcome) (reqs : List Request) : List (HttpOutcome × Bool) :=
  reqs.map (httpDispatch h)

/-- Wire header names at the HTTP layer, as character sequences. -/
abbrev WireName := List Char

/-- The `Rpc-Header-` marker on HTTP user headers. -/
def rpcHeaderLead : WireName := "Rpc-Header-".data

/-- ASCII lower-casing of a wire header name. -/
def lowerChars (k : WireName) : WireName := k.map lowerChar

/-- Modelled from the spec: HTTP user-header decoding (`yarpchttp`
`headers.go` is not under `src/`): every request header whose name starts
with `Rpc-Header-` becomes a user header with that lead stripped and the
key lower-cased; all other headers are not user headers. -/
def decodeUserHdrs (hs : List (WireName × String)) : List (WireName × String) :=
  (hs.filter (fun kv => kv.1.take rpcHeaderLead.length == rpcHeaderLead)).map
    (fun kv => (lowerChars (kv.1.drop rpcHeaderLead.length), kv.2))

/-- Modelled from the spec: HTTP user-header encoding: every user header
added by the handler is echoed on the response with the `Rpc-Header-`
lead prepended to its key. -/
def encodeUserHdrs (hs : List (WireName × String)) : List (WireName × String) :=
  hs.map (fun kv => (rpcHeaderLead ++ kv.1, kv.2))

/-- An environment whose only failing operation is the body-stream close. -/
def envCloseFail : Env :=
  { headersResult := none
    bodyOpenResult := none
    bodyWriteResult := fun _ s => (s.length, none)
    bodyCloseResult := some "connection reset" }

/-- A header decoder accepting every frame with a fixed result. -/
def dec0 : HdrDecode := fun _ _ => Except.ok [("k", "v")]

/-- A concrete inbound call with readable frames. -/
def call0 : Call :=
  { serviceName := "curly"
    callerName := "moe"
    methodString := "nyuck"
    format := "raw"
    arg2 := Except.ok [1, 2]
    arg3 := Except.ok [3, 4] }

/-- A handler that panics without touching the response writer. -/
def faultyHandler : Handler :=
  fun _ rw _ => { rw := rw, evs := [], outcome := HandlerOutcome.panicked "oops I panicked!" }

/-- A handler that returns an `InvalidArgument`-classed error. -/
def errHandler : Handler :=
  fun _ rw _ => { rw := rw, evs := [], outcome := HandlerOutcome.err ErrClass.invalidArgument "great sadness" }

/-- A concrete request for exercising the HTTP dispatcher model. -/
def req0 : Request :=
  { caller := "moe"
    service := "curly"
    encoding := "raw"
    procedure := "nyuck"
    headers := []
    body := []
    ttl := 1000 }

theorem envOk_ok : Env.ok envOk :=
  ⟨rfl, rfl, fun _ _ => rfl, rfl⟩

/-- Helper: whatever branch `Write` takes, the stored sticky error after the
call is the returned error when there is one, and the old stored error
otherwise. -/
theorem write_failedWith (env : Env) (rw : RW) (s : Bytes) :
    (RW.write env rw s).rw.failedWith =
      Option.elim (RW.write env rw s).err rw.failedWith some := by
  unfold RW.write RW.bodyStep RW.bodyEmit
  rcases hf : rw.failedWith with _ | e
  · by_cases hw : rw.wroteHeaders
    · simp only [hw, if_true]
      by_cases hb : rw.bodyOpen
      · simp only [hb, if_true]
        rcases hr : (env.bodyWriteResult rw.bodyWriteCount s).2 with _ | er <;> simp [hr, hf]
      · simp only [hb, if_false]
        rcases ho : env.bodyOpenResult with _ | eo
        · rcases hr : (env.bodyWriteResult rw.bodyWriteCount s).2 with _ | er <;> simp [hr, hf]
        · simp
    · simp only [hw, if_false]
      rcases hh : env.headersResult with _ | eh
      · by_cases hb : rw.bodyOpen
        · simp only [hb, if_true]
          rcases hr : (env.bodyWriteResult rw.bodyWriteCount s).2 with _ | er <;> simp [hr, hf]
        · simp only [hb, if_false]
          rcases ho : env.bodyOpenResult with _ | eo
          · rcases hr : (env.bodyWriteResult rw.bodyWriteCount s).2 with _ | er <;> simp [hr, hf]
          · simp
      · simp
  · simp [hf]

/-- Claim C2, counterexample: on a non-Failed writer with pending headers
and no prior `Write`, `Close` emits no wire event at all — in particular it
does not flush the pending headers — and returns nil. -/
theorem c2_counterexample :
    (RW.close envOk { RW.init "raw" with headers := [("k", "v")] }).evs = [] ∧
    (RW.close envOk { RW.init "raw" with headers := [("k", "v")] }).err = none :=
  ⟨rfl, rfl⟩

/-- Claim C2 (amended): for every ResponseWriter in a non-Failed state,
`Close` with no prior `Write` performs no wire action (the pending headers
are not flushed) and returns nil; after a `Write` has opened the body
stream, `Close` closes the body stream and returns the close result. -/
theorem c2_theorem (env : Env) (rw : RW) (hf : rw.failedWith = none) :
    (rw.bodyOpen = false →
      RW.close env rw = { rw := rw, evs := [], err := none }) ∧
    (rw.bodyOpen = true →
      RW.close env rw = { rw := rw, evs := [Event.closeBody], err := env.bodyCloseResult }) := by
  constructor <;> intro hb <;> simp [RW.close, hb, hf]

/-- Claim C2, witness for the amended theorem at a concrete writer. -/
theorem c2_witness :
    (RW.init "raw").failedWith = none ∧
    RW.close envOk (RW.init "raw") = { rw := RW.init "raw", evs := [], err := none } :=
  ⟨rfl, (c2_theorem envOk (RW.init "raw") rfl).1 rfl⟩

/-- Claim C3: `AddHeaders` in the Open state merges the given pairs into
the pending headers; after a successful `Write`, `AddHeaders` is refused
with the misuse panic message while the response still completes with the
already-frozen headers — the wire carries exactly the pre-`Write` headers,
nothing from the rejected call, and `Close` returns no error. -/
theorem c3_theorem (env : Env) (rw : RW) (h h2 : List (String × String)) (s : Bytes)
    (hok : Env.ok env) (hf : rw.failedWith = none) (hw : rw.wroteHeaders = false)
    (hb : rw.bodyOpen = false) :
    RW.addHeaders rw h =
      Except.ok { rw with headers := h.foldl (fun acc kv => hdrSet acc kv.1 kv.2) rw.headers } ∧
    (RW.write env rw s).err = none ∧
    (RW.write env rw s).rw.addHeaders h2 =
      Except.error "AddHeaders() cannot be called after calling Write()." ∧
    (RW.write env rw s).evs =
      [Event.flushHeaders rw.headers, Event.openBody, Event.writeBody s] ∧
    (RW.close env (RW.write env rw s).rw).err = none ∧
    (RW.close env (RW.write env rw s).rw).evs = [Event.closeBody] := by
  obtain ⟨e1, e2, e3, e4⟩ := hok
  refine ⟨by simp [RW.addHeaders, hw], ?_, ?_, ?_, ?_, ?_⟩ <;>
    simp [RW.write, RW.bodyStep, RW.bodyEmit, RW.close, RW.addHeaders, hf, hw, hb, e1, e2, e3, e4]

/-- Claim C3, witness: the spec's scenario `AddHeaders(foo:bar)`,
`Write("hi")`, `AddHeaders(x:y)` on a fresh writer. -/
theorem c3_witness :
    Env.ok envOk ∧
    RW.addHeaders { RW.init "raw" with headers := [("foo", "bar")] } [("x", "y")] =
      Except.ok { RW.init "raw" with headers := [("foo", "bar"), ("x", "y")] } ∧
    (RW.write envOk { RW.init "raw" with headers := [("foo", "bar")] } [104, 105]).err = none ∧
    (RW.write envOk { RW.init "raw" with headers := [("foo", "bar")] } [104, 105]).rw.addHeaders [("x", "y")] =
      Except.error "AddHeaders() cannot be called after calling Write()." ∧
    (RW.write envOk { RW.init "raw" with headers := [("foo", "bar")] } [104, 105]).evs =
      [Event.flushHeaders [("foo", "bar")], Event.openBody, Event.writeBody [104, 105]] ∧
    (RW.close envOk (RW.write envOk { RW.init "raw" with headers := [("foo", "bar")] } [104, 105]).rw).err = none ∧
    (RW.close envOk (RW.write envOk { RW.init "raw" with headers := [("foo", "bar")] } [104, 105]).rw).evs = [Event.closeBody] := by
  have h := c3_theorem envOk { RW.init "raw" with headers := [("foo", "bar")] }
    [("x", "y")] [("x", "y")] [104, 105] envOk_ok rfl rfl rfl
  refine ⟨envOk_ok, ?_, h.2.1, h.2.2.1, h.2.2.2.1, h.2.2.2.2.1, h.2.2.2.2.2⟩
  have := h.1
  simpa [hdrSet, lowerStr] using this

/-- Claim C4: on a fresh (Open) writer the first `Write` flushes the
pending headers, then opens the body stream, then writes the given bytes
— in that order on the wire — and every subsequent `Write` only appends
to the body, so headers always precede the body within a call. -/
theorem c4_theorem (env : Env) (rw : RW) (s s2 : Bytes)
    (hok : Env.ok env) (hf : rw.failedWith = none) (hw : rw.wroteHeaders = false)
    (hb : rw.bodyOpen = false) :
    RW.write env rw s =
      { rw := { rw with
          wroteHeaders := true
          bodyOpen := true
          bodyWriteCount := rw.bodyWriteCount + 1 }
        evs := [Event.flushHeaders rw.headers, Event.openBody, Event.writeBody s]
        n := s.length
        err := none } ∧
    (∀ rw2 : RW, rw2.failedWith = none → rw2.wroteHeaders = true → rw2.bodyOpen = true →
      RW.write env rw2 s2 =
        { rw := { rw2 with bodyWriteCount := rw2.bodyWriteCount + 1 }
          evs := [Event.writeBody s2]
          n := s2.length
          err := none }) := by
  obtain ⟨e1, e2, e3, e4⟩ := hok
  constructor
  · simp [RW.write, RW.bodyStep, RW.bodyEmit, hf, hw, hb, e1, e2, e3]
  · intro rw2 hf2 hw2 hb2
    simp [RW.write, RW.bodyStep, RW.bodyEmit, hf2, hw2, hb2, e3]

/-- Claim C4, witness at a fresh writer and concrete bytes. -/
theorem c4_witness :
    RW.write envOk (RW.init "raw") [104] =
      { rw := { RW.init "raw" with
          wroteHeaders := true
          bodyOpen := true
          bodyWriteCount := 1 }
        evs := [Event.flushHeaders [], Event.openBody, Event.writeBody [104]]
        n := 1
        err := none } ∧
    RW.write envOk { RW.init "raw" with
          wroteHeaders := true
          bodyOpen := true
          bodyWriteCount := 1 } [105] =
      { rw := { RW.init "raw" with
          wroteHeaders := true
          bodyOpen := true
          bodyWriteCount := 2 }
        evs := [Event.writeBody [105]]
        n := 1
        err := none } := by
  have h := c4_theorem envOk (RW.init "raw") [104] [105] envOk_ok rfl rfl rfl
  exact ⟨h.1, h.2 { RW.init "raw" with
          wroteHeaders := true
          bodyOpen := true
          bodyWriteCount := 1 } rfl rfl rfl⟩

/-- Claim C5, counterexample: with a transport whose body-stream close
fails, a writer that saw no error during any `Write` (nothing stored) gets
a non-nil result from `Close` — refuting that `Close` returns nil whenever
no `Write` error was stored. -/
theorem c5_counterexample :
    (RW.write envCloseFail (RW.init "raw") [104, 105]).rw.failedWith = none ∧
    (RW.close envCloseFail (RW.write envCloseFail (RW.init "raw") [104, 105]).rw).err =
      some "connection reset" :=
  ⟨rfl, rfl⟩

/-- Claim C5 (amended): the first I/O error in `Write` (header flush,
body-stream open, or body write) is stored and makes the Failed state
sticky: a later `Write` returns the stored error with no side effect, and
`Close` returns the stored error when there is one; with no stored error,
`Close` returns the result of closing the body stream when a `Write`
opened it, and nil otherwise. -/
theorem c5_theorem :
    (∀ (env : Env) (rw : RW) (s : Bytes) (e : String), rw.failedWith = none →
      (RW.write env rw s).err = some e → (RW.write env rw s).rw.failedWith = some e) ∧
    (∀ (env : Env) (rw : RW) (s : Bytes) (e : String), rw.failedWith = some e →
      RW.write env rw s = { rw := rw, evs := [], n := 0, err := some e }) ∧
    (∀ (env : Env) (rw : RW) (e : String), rw.failedWith = some e →
      (RW.close env rw).err = some e) ∧
    (∀ (env : Env) (rw : RW), rw.failedWith = none →
      (RW.close env rw).err = if rw.bodyOpen then env.bodyCloseResult else none) := by
  refine ⟨?_, ?_, ?_, ?_⟩
  · intro env rw s e hf he
    rw [write_failedWith, he]
    rfl
  · intro env rw s e hf
    simp [RW.write, hf]
  · intro env rw e hf
    by_cases hb : rw.bodyOpen <;> simp [RW.close, hb, hf]
  · intro env rw hf
    by_cases hb : rw.bodyOpen <;> simp [RW.close, hb, hf]

/-- Claim C5, witness: a header-flush failure is stored, a second `Write`
returns it with no side effect, and `Close` reports it. -/
theorem c5_witness :
    (RW.init "raw").failedWith = none ∧
    (RW.write { envOk with headersResult := some "broken pipe" } (RW.init "raw") [104]).err = some "broken pipe" ∧
    (RW.write { envOk with headersResult := some "broken pipe" } (RW.init "raw") [104]).rw.failedWith = some "broken pipe" ∧
    RW.write envOk { RW.init "raw" with failedWith := some "broken pipe" } [105] =
      { rw := { RW.init "raw" with failedWith := some "broken pipe" }, evs := [], n := 0, err := some "broken pipe" } ∧
    (RW.close envOk { RW.init "raw" with failedWith := some "broken pipe" }).err = some "broken pipe" := by
  refine ⟨rfl, rfl, ?_, ?_, ?_⟩
  · exact c5_theorem.1 { envOk with headersResult := some "broken pipe" } (RW.init "raw") [104] "broken pipe" rfl rfl
  · exact c5_theorem.2.1 envOk { RW.init "raw" with failedWith := some "broken pipe" } [105] "broken pipe" rfl
  · exact c5_theorem.2.2.1 envOk { RW.init "raw" with failedWith := some "broken pipe" } "broken pipe" rfl

/-- Claim C10: the first `Write` freezes the headers and opens the body
stream even for an empty byte slice: the pending headers are flushed, the
(empty) body stream is opened and written, and any later `AddHeaders` is
refused. -/
theorem c10_theorem (env : Env) (rw : RW) (h2 : List (String × String))
    (hok : Env.ok env) (hf : rw.failedWith = none) (hw : rw.wroteHeaders = false)
    (hb : rw.bodyOpen = false) :
    RW.write env rw [] =
      { rw := { rw with
          wroteHeaders := true
          bodyOpen := true
          bodyWriteCount := rw.bodyWriteCount + 1 }
        evs := [Event.flushHeaders rw.headers, Event.openBody, Event.writeBody []]
        n := 0
        err := none } ∧
    (RW.write env rw []).rw.wroteHeaders = true ∧
    (RW.write env rw []).rw.addHeaders h2 =
      Except.error "AddHeaders() cannot be called after calling Write()." := by
  obtain ⟨e1, e2, e3, e4⟩ := hok
  refine ⟨?_, ?_, ?_⟩ <;>
    simp [RW.write, RW.bodyStep, RW.bodyEmit, RW.addHeaders, hf, hw, hb, e1, e2, e3]

/-- Claim C10, witness at a fresh writer with one pending header. -/
theorem c10_witness :
    RW.write envOk { RW.init "raw" with headers := [("k", "v")] } [] =
      { rw := { RW.init "raw" with
          headers := [("k", "v")]
          wroteHeaders := true
          bodyOpen := true
          bodyWriteCount := 1 }
        evs := [Event.flushHeaders [("k", "v")], Event.openBody, Event.writeBody []]
        n := 0
        err := none } ∧
    (RW.write envOk { RW.init "raw" with headers := [("k", "v")] } []).rw.addHeaders [("x", "y")] =
      Except.error "AddHeaders() cannot be called after calling Write()." := by
  have h := c10_theorem envOk { RW.init "raw" with headers := [("k", "v")] } [("x", "y")] envOk_ok rfl rfl rfl
  exact ⟨h.1, h.2.2⟩

/-- Claim C1, counterexample: on the TChannel dispatcher a handler panic
is not converted into any system error — `handle` itself exits by
propagating the panic, and no `SendSystemError` call appears on the wire. -/
theorem c1_counterexample :
    (handle (some 1000) 0 dec0 envOk faultyHandler call0).1 =
      HandleResult.panicked "oops I panicked!" ∧
    ((handle (some 1000) 0 dec0 envOk faultyHandler call0).2.all
      (fun e => match e with
        | Event.sendSystemError _ => false
        | _ => true)) = true :=
  ⟨rfl, rfl⟩

/-- Claim C1 (amended): the HTTP inbound dispatcher invokes `Handle` under
a recovery barrier — a panic becomes `Unknown("panic: <info>")`, the
response is still terminated, and the listener serves every call of any
sequence — while the TChannel dispatcher invokes `Handle` with no barrier:
a handler panic propagates out of `handle`, the dispatcher appends only
the deferred response-writer close and request-body close to the trace,
and sends no system error. -/
theorem c1_theorem :
    (∀ (d now : Int) (dec : HdrDecode) (env : Env) (hdlr : Handler) (call : Call)
        (a2 b3 : Bytes) (hs : Headers) (r : RW) (hevs : List Event) (m : String),
        call.arg2 = Except.ok a2 →
        dec call.format a2 = Except.ok hs →
        call.arg3 = Except.ok b3 →
        hdlr (mkReq call hs b3 (d - now)) (RW.init call.format) env =
          { rw := r, evs := hevs, outcome := HandlerOutcome.panicked m } →
        handle (some d) now dec env hdlr call =
          (HandleResult.panicked m,
            [Event.readArg2, Event.readArg3, Event.invokeHandler (mkReq call hs b3 (d - now))]
              ++ hevs ++ (RW.close env r).evs ++ [Event.closeReqBody])) ∧
    (∀ (f : Request → HandlerOutcome) (req : Request) (m : String),
        f req = HandlerOutcome.panicked m →
        httpDispatch f req = (HttpOutcome.rpcError ErrClass.unknown ("panic: " ++ m), true)) ∧
    (∀ (f : Request → HandlerOutcome) (reqs : List Request),
        (httpServe f reqs).length = reqs.length) := by
  refine ⟨?_, ?_, ?_⟩
  · intro d now dec env hdlr call a2 b3 hs r hevs m h2 hd h3 hh
    simp [handle, readHdrs, h2, hd, h3, hh]
  · intro f req m hf
    simp [httpDispatch, hf]
  · intro f reqs
    simp [httpServe]

/-- Claim C1, witness for the amended theorem at a concrete panicking
handler, on both dispatchers. -/
theorem c1_witness :
    handle (some 1000) 0 dec0 envOk faultyHandler call0 =
      (HandleResult.panicked "oops I panicked!",
        [Event.readArg2, Event.readArg3,
         Event.invokeHandler (mkReq call0 [("k", "v")] [3, 4] 1000),
         Event.closeReqBody]) ∧
    httpDispatch (fun _ => HandlerOutcome.panicked "oops I panicked!") req0 =
      (HttpOutcome.rpcError ErrClass.unknown "panic: oops I panicked!", true) := by
  constructor
  · have h := c1_theorem.1 1000 0 dec0 envOk faultyHandler call0 [1, 2] [3, 4]
      [("k", "v")] (RW.init "raw") [] "oops I panicked!" rfl rfl rfl rfl
    simpa [RW.close, RW.init] using h
  · exact c1_theorem.2.1 (fun _ => HandlerOutcome.panicked "oops I panicked!") req0
      "oops I panicked!" rfl

/-- Claim C6: a TChannel inbound call whose ambient context carries no
deadline is rejected with the `ErrTimeoutRequired` system error, and the
dispatcher returns without reading either argument frame or invoking the
handler — the trace is exactly that one send. -/
theorem c6_theorem (now : Int) (dec : HdrDecode) (env : Env) (hdlr : Handler) (call : Call) :
    handle none now dec env hdlr call =
      (HandleResult.returned, [Event.sendSystemError SysErr.timeoutRequired]) :=
  rfl

/-- Claim C6, witness at a concrete call. -/
theorem c6_witness :
    handle none 0 dec0 envOk faultyHandler call0 =
      (HandleResult.returned, [Event.sendSystemError SysErr.timeoutRequired]) :=
  c6_theorem 0 dec0 envOk faultyHandler call0

/-- Claim C7, counterexample: a handler error of class `InvalidArgument`
(whose corresponding system code is `BadRequest`) is emitted with code
`Unexpected`; no system error with the corresponding code appears. -/
theorem c7_counterexample :
    Event.sendSystemError (SysErr.sys ErrCode.unexpected "internal error: great sadness")
        ∈ (handle (some 1000) 0 dec0 envOk errHandler call0).2 ∧
    ((handle (some 1000) 0 dec0 envOk errHandler call0).2.all
      (fun e => match e with
        | Event.sendSystemError (SysErr.sys c _) => !(c == classCode ErrClass.invalidArgument)
        | _ => true)) = true := by
  constructor
  · decide
  · rfl

/-- Claim C7 (amended): when `Handle` returns a non-nil error the TChannel
dispatcher emits it through `SendSystemError` always with the `Unexpected`
system code and message `internal error: <err>`, regardless of the
error's transport-neutral class. -/
theorem c7_theorem (d now : Int) (dec : HdrDecode) (env : Env) (hdlr : Handler) (call : Call)
    (a2 b3 : Bytes) (hs : Headers) (r : RW) (hevs : List Event) (c : ErrClass) (m : String)
    (h2 : call.arg2 = Except.ok a2)
    (hd : dec call.format a2 = Except.ok hs)
    (h3 : call.arg3 = Except.ok b3)
    (hh : hdlr (mkReq call hs b3 (d - now)) (RW.init call.format) env =
      { rw := r, evs := hevs, outcome := HandlerOutcome.err c m }) :
    handle (some d) now dec env hdlr call =
      (HandleResult.returned,
        [Event.readArg2, Event.readArg3, Event.invokeHandler (mkReq call hs b3 (d - now))]
          ++ hevs
          ++ [Event.sendSystemError (SysErr.sys ErrCode.unexpected ("internal error: " ++ m))]
          ++ (RW.close env r).evs ++ [Event.closeReqBody]) := by
  simp [handle, readHdrs, h2, hd, h3, hh]

/-- Claim C7, witness for the amended theorem at a concrete erroring
handler. -/
theorem c7_witness :
    handle (some 1000) 0 dec0 envOk errHandler call0 =
      (HandleResult.returned,
        [Event.readArg2, Event.readArg3,
         Event.invokeHandler (mkReq call0 [("k", "v")] [3, 4] 1000),
         Event.sendSystemError (SysErr.sys ErrCode.unexpected "internal error: great sadness"),
         Event.closeReqBody]) := by
  have h := c7_theorem 1000 0 dec0 envOk errHandler call0 [1, 2] [3, 4] [("k", "v")]
    (RW.init "raw") [] ErrClass.invalidArgument "great sadness" rfl rfl rfl rfl
  simpa [RW.close, RW.init] using h

/-- Claim C8: on every accepted TChannel call the request handed to the
handler carries Caller from `CallerName`, Service from `ServiceName`,
Procedure from `MethodString`, Encoding from `Format`, the headers decoded
from the arg2 frame, and the body read through `Arg3Reader`. -/
theorem c8_theorem (d now : Int) (dec : HdrDecode) (env : Env) (hdlr : Handler) (call : Call)
    (a2 b3 : Bytes) (hs : Headers)
    (h2 : call.arg2 = Except.ok a2)
    (hd : dec call.format a2 = Except.ok hs)
    (h3 : call.arg3 = Except.ok b3) :
    Event.invokeHandler
        { caller := call.callerName
          service := call.serviceName
          encoding := call.format
          procedure := call.methodString
          headers := hs
          body := b3
          ttl := d - now }
      ∈ (handle (some d) now dec env hdlr call).2 := by
  simp only [handle, readHdrs, h2, hd, h3]
  rcases ho : (hdlr (mkReq call hs b3 (d - now)) (RW.init call.format) env).outcome with _ | cm | m <;>
    simp [ho, mkReq, List.mem_append]

/-- Claim C8, witness at a concrete call. -/
theorem c8_witness :
    Event.invokeHandler
        { caller := "moe"
          service := "curly"
          encoding := "raw"
          procedure := "nyuck"
          headers := [("k", "v")]
          body := [3, 4]
          ttl := 1000 }
      ∈ (handle (some 1000) 0 dec0 envOk faultyHandler call0).2 :=
  c8_theorem 1000 0 dec0 envOk faultyHandler call0 [1, 2] [3, 4] [("k", "v")] rfl rfl rfl

/-- Helper: a request header built as `Rpc-Header-` followed by `k` is
decoded to the user header `(lower k, v)`; decoding continues on the rest. -/
theorem decodeUserHdrs_cons_hit (k : WireName) (v : String) (rest : List (WireName × String)) :
    decodeUserHdrs ((rpcHeaderLead ++ k, v) :: rest) =
      (lowerChars k, v) :: decodeUserHdrs rest := by
  simp [decodeUserHdrs, List.take_left, List.drop_left]

/-- Helper: encoding then decoding restores user headers whose keys are
already lower-cased. -/
theorem decode_encode_id (hs : List (WireName × String))
    (h : hs.all (fun kv => lowerChars kv.1 == kv.1) = true) :
    decodeUserHdrs (encodeUserHdrs hs) = hs := by
  induction hs with
  | nil => rfl
  | cons kv rest ih =>
    rcases kv with ⟨k, v⟩
    simp only [List.all_cons, Bool.and_eq_true] at h
    have hk : lowerChars k = k := by
      have h1 := h.1
      simpa using h1
    have hstep : decodeUserHdrs (encodeUserHdrs ((k, v) :: rest)) =
        (lowerChars k, v) :: decodeUserHdrs (encodeUserHdrs rest) := by
      simpa [encodeUserHdrs] using decodeUserHdrs_cons_hit k v (encodeUserHdrs rest)
    rw [hstep, hk, ih h.2]

/-- Claim C9: every request header named `Rpc-Header-` followed by `k`
becomes the user header with key `lower k`; every user header is echoed on
the response with the `Rpc-Header-` lead; and the encode-then-decode round
trip restores the user headers exactly (their keys being lower-cased), so
the lowercased-key-to-value mapping is preserved. -/
theorem c9_theorem :
    (∀ (k : WireName) (v : String) (rest : List (WireName × String)),
        decodeUserHdrs ((rpcHeaderLead ++ k, v) :: rest) =
          (lowerChars k, v) :: decodeUserHdrs rest) ∧
    (∀ (hs : List (WireName × String)),
        encodeUserHdrs hs = hs.map (fun kv => (rpcHeaderLead ++ kv.1, kv.2))) ∧
    (∀ (hs : List (WireName × String)),
        hs.all (fun kv => lowerChars kv.1 == kv.1) = true →
        decodeUserHdrs (encodeUserHdrs hs) = hs) :=
  ⟨decodeUserHdrs_cons_hit, fun _ => rfl, decode_encode_id⟩

/-- Claim C9, witness: the round trip at the concrete user headers
`foo: bar` and `shard-key: 123`. -/
theorem c9_witness :
    decodeUserHdrs (encodeUserHdrs [("foo".data, "bar"), ("shard-key".data, "123")]) =
      [("foo".data, "bar"), ("shard-key".data, "123")] := by
  have h : ([("foo".data, "bar"), ("shard-key".data, "123")] :
      List (WireName × String)).all (fun kv => lowerChars kv.1 == kv.1) = true := by
    decide
  exact c9_theorem.2.2 _ h

end Yarpc
